import Mathlib

/-!
# grpcutils: the gRPC authenticator with legacy fallback

A shallow embedding of `pkg/services/authn/grpcutils/grpc_authenticator.go`.

Side effects of the Go code (calls into the two authenticators, counter
increments, span attributes, the package-level `sync.Once`, registrations with
a Prometheus registry) are made explicit as fields of a `World` that every
operation threads through.  External collaborators (the verification library,
the legacy authenticator, the tracer) are parameters.
-/

namespace Grpcutils

/-! ## External objects -/

/-- Identity of an allocated `*prometheus.CounterVec`. -/
abbrev CounterId := Nat

/-- Identity of a `prometheus.Registerer`. -/
abbrev RegId := Nat

/-- A tracing span: the `SetAttributes` calls it received, oldest first, and
whether `End` has run. -/
structure Span where
  name : String
  sets : List (String × Bool)
  ended : Bool
deriving DecidableEq, Repr

/-- The call `span.SetAttributes(attribute.Bool(key, value))`. -/
def Span.SetAttributes (s : Span) (key : String) (value : Bool) : Span :=
  { s with sets := s.sets ++ [(key, value)] }

/-- The call `span.End()`. -/
def Span.End (s : Span) : Span :=
  { s with ended := true }

/-- Value of a boolean attribute of a span: the most recent `SetAttributes`
for the key wins. -/
def Span.attr (s : Span) (key : String) : Option Bool :=
  s.sets.reverse.lookup key

/-- A `tracing.Tracer`: `Start` derives a context from the given one and opens
a new span of the given name. -/
structure Tracer (Ctx : Type) where
  derive : Ctx → String → Ctx

/-- The call `tracer.Start(ctx, name)`. -/
def Tracer.Start {Ctx : Type} (t : Tracer Ctx) (ctx : Ctx) (name : String) : Ctx × Span :=
  (t.derive ctx name, { name := name, sets := [], ended := false })

/-- An invocation of one of the two composed authenticators, with the context
it received. -/
inductive Invocation (Ctx : Type) where
  | primary : Ctx → Invocation Ctx
  | legacy : Ctx → Invocation Ctx
deriving DecidableEq, Repr

/-- A collector held by a registry: the object and the fully-qualified name of
its descriptor. -/
structure Collector where
  id : CounterId
  fqName : String
deriving DecidableEq, Repr

/-- Everything the package reads or writes outside its arguments.
`ext` is the state of the external collaborators (key cache, network). -/
structure World (σ Ctx : Type) where
  ext : σ
  once : Bool
  nextCounter : CounterId
  counters : CounterId → String → Nat
  registered : RegId → List Collector
  mustRegisterCalls : List (RegId × CounterId)
  spans : List Span
  invocations : List (Invocation Ctx)

/-- An authenticator, `Authenticate(ctx) (ctx, error)`; a `nil` error is `none`. -/
structure Authenticator (σ Ctx ε : Type) where
  Authenticate : Ctx → σ → (Ctx × Option ε) × σ

/-- Result of a Go call that may panic. -/
inductive Outcome (α : Type) where
  | returned : α → Outcome α
  | panicked : String → Outcome α
deriving DecidableEq, Repr

/-! ## The fallback orchestrator -/

/-- The struct `metrics`. -/
structure metrics where
  fallbackCounter : CounterId
deriving DecidableEq, Repr

/-- The struct `AuthenticatorWithFallback`. -/
structure AuthenticatorWithFallback (σ Ctx ε : Type) where
  authenticator : Authenticator σ Ctx ε
  legacyAuthenticator : Authenticator σ Ctx ε
  fallbackEnabled : Bool
  metrics : metrics
  tracer : Tracer Ctx

/-- The formatting `fmt.Sprintf("%t", b)`. -/
def sprintfBool (b : Bool) : String :=
  if b then "true" else "false"

/-- The call `counterVec.WithLabelValues(label).Inc()`. -/
def World.Inc {σ Ctx : Type} (w : World σ Ctx) (c : CounterId) (label : String) : World σ Ctx :=
  { w with counters :=
      Function.update w.counters c (Function.update (w.counters c) label (w.counters c label + 1)) }

/-- The deferred `span.End()`: the finished span is handed to the tracing backend. -/
def World.finish {σ Ctx : Type} (w : World σ Ctx) (span : Span) : World σ Ctx :=
  { w with spans := w.spans ++ [span.End] }

/-- Name of the span opened by `Authenticate`. -/
def spanName : String := "grpcutils.AuthenticatorWithFallback.Authenticate"

/-- The method `(*AuthenticatorWithFallback).Authenticate`. -/
def AuthenticatorWithFallback.Authenticate {σ Ctx ε : Type}
    (f : AuthenticatorWithFallback σ Ctx ε) (ctx : Ctx) (w : World σ Ctx) :
    (Ctx × Option ε) × World σ Ctx :=
  let started := f.tracer.Start ctx spanName
  let ctx₁ := started.1
  let span := started.2.SetAttributes "fallback_used" false
  let origCtx := ctx₁
  let p := f.authenticator.Authenticate ctx₁ w.ext
  let w₁ := { w with ext := p.2, invocations := w.invocations ++ [Invocation.primary ctx₁] }
  match p.1.2 with
  | none => ((p.1.1, none), w₁.finish span)
  | some e =>
    if f.fallbackEnabled then
      let l := f.legacyAuthenticator.Authenticate origCtx w₁.ext
      let w₂ := { w₁ with ext := l.2, invocations := w₁.invocations ++ [Invocation.legacy origCtx] }
      let w₃ := w₂.Inc f.metrics.fallbackCounter (sprintfBool l.1.2.isNone)
      let span := span.SetAttributes "fallback_used" true
      (l.1, w₃.finish span)
    else
      ((p.1.1, some e), w₁.finish span)

/-- The context `Authenticate` holds after starting its span: the value of
`origCtx`, which is also the argument of the primary authenticator. -/
def AuthenticatorWithFallback.origCtx {σ Ctx ε : Type}
    (f : AuthenticatorWithFallback σ Ctx ε) (ctx : Ctx) : Ctx :=
  (f.tracer.Start ctx spanName).1

/-- What the primary authenticator returns when `Authenticate` calls it. -/
def AuthenticatorWithFallback.primaryResult {σ Ctx ε : Type}
    (f : AuthenticatorWithFallback σ Ctx ε) (ctx : Ctx) (w : World σ Ctx) : (Ctx × Option ε) × σ :=
  f.authenticator.Authenticate (f.origCtx ctx) w.ext

/-- What the legacy authenticator returns when it is called with `origCtx`
right after the primary authenticator has run. -/
def AuthenticatorWithFallback.legacyResult {σ Ctx ε : Type}
    (f : AuthenticatorWithFallback σ Ctx ε) (ctx : Ctx) (w : World σ Ctx) : (Ctx × Option ε) × σ :=
  f.legacyAuthenticator.Authenticate (f.origCtx ctx) (f.primaryResult ctx w).2

/-- The finished span of an `Authenticate` call that did not fall back. -/
def spanWithoutFallback : Span :=
  { name := spanName, sets := [("fallback_used", false)], ended := true }

/-- The finished span of an `Authenticate` call that fell back. -/
def spanWithFallback : Span :=
  { name := spanName, sets := [("fallback_used", false), ("fallback_used", true)], ended := true }

/-! ## Metrics -/

/-- The constant `metricsNamespace`. -/
def metricsNamespace : String := "grafana"

/-- The constant `metricsSubSystem`. -/
def metricsSubSystem : String := "grpc_authenticator"

/-- The function `prometheus.BuildFQName`, which `NewCounterVec` applies to
`Namespace`, `Subsystem` and `Name` of the `CounterOpts`. -/
def BuildFQName (ns subsystem name : String) : String :=
  if name = "" then ""
  else if ns ≠ "" ∧ subsystem ≠ "" then ns ++ "_" ++ subsystem ++ "_" ++ name
  else if ns ≠ "" then ns ++ "_" ++ name
  else if subsystem ≠ "" then subsystem ++ "_" ++ name
  else name

/-- Fully-qualified name of the counter vector built by `newMetrics`. -/
def fallbackFQName : String :=
  BuildFQName metricsNamespace metricsSubSystem "fallback_total"

/-- The call `reg.MustRegister(c)` on a Prometheus registry: it panics when a
descriptor with the same fully-qualified name is already registered, and
otherwise adds the collector.  Every call is logged. -/
def MustRegister {σ Ctx : Type} (reg : RegId) (c : Collector) (w : World σ Ctx) :
    Outcome Unit × World σ Ctx :=
  let w₁ := { w with mustRegisterCalls := w.mustRegisterCalls ++ [(reg, c.id)] }
  if (w.registered reg).any (fun d => d.fqName == c.fqName) then
    (Outcome.panicked "duplicate metrics collector registration attempted", w₁)
  else
    (Outcome.returned (), { w₁ with registered := Function.update w₁.registered reg (w₁.registered reg ++ [c]) })

/-- The function `newMetrics`.  `prometheus.NewCounterVec` allocates a new
counter vector with all values zero; `once.Do` runs its argument only while the
package-level `once` has not fired, and marks it fired even when the argument
panics.  A `nil` registry is `none`. -/
def newMetrics {σ Ctx : Type} (reg : Option RegId) (w : World σ Ctx) :
    Outcome metrics × World σ Ctx :=
  let id := w.nextCounter
  let m : metrics := { fallbackCounter := id }
  let w₁ := { w with nextCounter := id + 1, counters := Function.update w.counters id (fun _ => 0) }
  match reg with
  | none => (Outcome.returned m, w₁)
  | some r =>
    if w₁.once then (Outcome.returned m, w₁)
    else
      let done := MustRegister r { id := m.fallbackCounter, fqName := fallbackFQName } { w₁ with once := true }
      match done.1 with
      | Outcome.returned _ => (Outcome.returned m, done.2)
      | Outcome.panicked msg => (Outcome.panicked msg, done.2)

/-- Calls `newMetrics` `n` times in a row against the same registry and
collects the outcomes, first call first. -/
def newMetricsTimes {σ Ctx : Type} (reg : Option RegId) : Nat → World σ Ctx →
    List (Outcome metrics) × World σ Ctx
  | 0, w => ([], w)
  | n + 1, w =>
    let first := newMetrics reg w
    let rest := newMetricsTimes reg n first.2
    (first.1 :: rest.1, rest.2)

/-- What a scrape of the registry reports for one series: the values of the
registered collectors of that name, summed. -/
def World.exported {σ Ctx : Type} (w : World σ Ctx) (reg : RegId) (fqName label : String) : Nat :=
  (((w.registered reg).filter (fun c => c.fqName == fqName)).map (fun c => w.counters c.id label)).sum

/-! ## Construction -/

/-- The struct `tls.Config`, reduced to the field set here. -/
structure TLSConfig where
  InsecureSkipVerify : Bool
deriving DecidableEq, Repr

/-- The struct `http.Transport`; `none` is a nil `TLSClientConfig`. -/
structure Transport where
  TLSClientConfig : Option TLSConfig
deriving DecidableEq, Repr

/-- The struct `http.Client`; `none` is a nil `Transport`, which makes the
client use the default, certificate-verifying transport. -/
structure HTTPClient where
  Transport : Option Transport
deriving DecidableEq, Repr

/-- The variable `http.DefaultClient`. -/
def DefaultClient : HTTPClient := { Transport := none }

/-- Whether a client skips TLS certificate verification. -/
def HTTPClient.InsecureSkipVerify (c : HTTPClient) : Bool :=
  match c.Transport with
  | none => false
  | some t =>
    match t.TLSClientConfig with
    | none => false
    | some tlsCfg => tlsCfg.InsecureSkipVerify

/-- The struct `authnlib.KeyRetrieverConfig`. -/
structure KeyRetrieverConfig where
  SigningKeysURL : String
deriving DecidableEq, Repr

/-- The struct `authnlib.VerifierConfig`. -/
structure VerifierConfig where
  AllowedAudiences : List String
deriving DecidableEq, Repr

/-- The struct `authnlib.GrpcAuthenticatorConfig`. -/
structure GrpcAuthenticatorConfig where
  KeyRetrieverConfig : KeyRetrieverConfig
  VerifierConfig : VerifierConfig
deriving DecidableEq, Repr

/-- Options accepted by `authnlib.NewKeyRetriever`. -/
inductive KeyRetrieverOpt where
  | WithHTTPClientKeyRetrieverOpt : HTTPClient → KeyRetrieverOpt
deriving DecidableEq, Repr

/-- A key retriever, identified by the arguments it was built from. -/
structure KeyRetriever where
  config : KeyRetrieverConfig
  opts : List KeyRetrieverOpt
deriving DecidableEq, Repr

/-- The call `authnlib.NewKeyRetriever(cfg, opts...)`. -/
def NewKeyRetriever (cfg : KeyRetrieverConfig) (opts : List KeyRetrieverOpt) : KeyRetriever :=
  { config := cfg, opts := opts }

/-- The HTTP clients a key retriever was given. -/
def KeyRetriever.clients (k : KeyRetriever) : List HTTPClient :=
  k.opts.map (fun o => match o with | KeyRetrieverOpt.WithHTTPClientKeyRetrieverOpt c => c)

/-- Options accepted by the constructors of `authnlib.GrpcAuthenticator`. -/
inductive GrpcAuthenticatorOption (Ctx : Type) where
  | WithIDTokenAuthOption : Bool → GrpcAuthenticatorOption Ctx
  | WithKeyRetrieverOption : KeyRetriever → GrpcAuthenticatorOption Ctx
  | WithTracerAuthOption : Tracer Ctx → GrpcAuthenticatorOption Ctx
  | WithDisableAccessTokenAuthOption : GrpcAuthenticatorOption Ctx

/-- The two constructors of the verification library, `A` being the type of
authenticator they build. -/
structure Authnlib (Ctx ε A : Type) where
  NewGrpcAuthenticator : GrpcAuthenticatorConfig → List (GrpcAuthenticatorOption Ctx) → Except ε A
  NewUnsafeGrpcAuthenticator : GrpcAuthenticatorConfig → List (GrpcAuthenticatorOption Ctx) → A

/-- The struct `setting.Cfg`: the `Env` field, and everything else. -/
structure Cfg (κ : Type) where
  Env : String
  raw : κ

/-- The value `ReadGrpcServerConfig` returns, with the fields this file reads. -/
structure GrpcServerConfig where
  SigningKeysURL : String
  AllowedAudiences : List String
  Mode : String
  LegacyFallback : Bool
deriving DecidableEq, Repr

/-- Declarations this file uses and other files of the repository provide:
the constants `setting.Dev` and `ModeOnPrem`, and the function
`ReadGrpcServerConfig`. -/
structure Decls (κ ε : Type) where
  Dev : String
  ModeOnPrem : String
  ReadGrpcServerConfig : Cfg κ → Except ε GrpcServerConfig

/-- The function `NewGrpcAuthenticator`. -/
def NewGrpcAuthenticator {κ Ctx ε A : Type} (d : Decls κ ε) (lib : Authnlib Ctx ε A)
    (cfg : Cfg κ) (tracer : Tracer Ctx) : Except ε A :=
  match d.ReadGrpcServerConfig cfg with
  | Except.error err => Except.error err
  | Except.ok authCfg =>
    let grpcAuthCfg : GrpcAuthenticatorConfig :=
      { KeyRetrieverConfig := { SigningKeysURL := authCfg.SigningKeysURL },
        VerifierConfig := { AllowedAudiences := authCfg.AllowedAudiences } }
    let client : HTTPClient :=
      if cfg.Env = d.Dev then
        { Transport := some { TLSClientConfig := some { InsecureSkipVerify := true } } }
      else DefaultClient
    let keyRetriever := NewKeyRetriever grpcAuthCfg.KeyRetrieverConfig
      [KeyRetrieverOpt.WithHTTPClientKeyRetrieverOpt client]
    let grpcOpts : List (GrpcAuthenticatorOption Ctx) :=
      [ GrpcAuthenticatorOption.WithIDTokenAuthOption true,
        GrpcAuthenticatorOption.WithKeyRetrieverOption keyRetriever,
        GrpcAuthenticatorOption.WithTracerAuthOption tracer ]
    let grpcOpts :=
      if authCfg.Mode = d.ModeOnPrem then
        grpcOpts ++ [GrpcAuthenticatorOption.WithDisableAccessTokenAuthOption]
      else grpcOpts
    lib.NewGrpcAuthenticator grpcAuthCfg grpcOpts

/-- The zero value `authnlib.GrpcAuthenticatorConfig{}`. -/
def emptyGrpcAuthenticatorConfig : GrpcAuthenticatorConfig :=
  { KeyRetrieverConfig := { SigningKeysURL := "" }, VerifierConfig := { AllowedAudiences := [] } }

/-- The function `NewInProcGrpcAuthenticator`. -/
def NewInProcGrpcAuthenticator {Ctx ε A : Type} (lib : Authnlib Ctx ε A) : A :=
  lib.NewUnsafeGrpcAuthenticator emptyGrpcAuthenticatorConfig
    [ GrpcAuthenticatorOption.WithDisableAccessTokenAuthOption,
      GrpcAuthenticatorOption.WithIDTokenAuthOption true ]

/-- The function `NewGrpcAuthenticatorWithFallback`; `legacy` is the value
`&grpc.Authenticator{}`. -/
def NewGrpcAuthenticatorWithFallback {κ σ Ctx ε : Type} (d : Decls κ ε)
    (lib : Authnlib Ctx ε (Authenticator σ Ctx ε)) (legacy : Authenticator σ Ctx ε)
    (cfg : Cfg κ) (reg : Option RegId) (tracer : Tracer Ctx) (w : World σ Ctx) :
    Outcome (Except ε (AuthenticatorWithFallback σ Ctx ε)) × World σ Ctx :=
  match d.ReadGrpcServerConfig cfg with
  | Except.error err => (Outcome.returned (Except.error err), w)
  | Except.ok authCfg =>
    match NewGrpcAuthenticator d lib cfg tracer with
    | Except.error err => (Outcome.returned (Except.error err), w)
    | Except.ok authenticator =>
      let made := newMetrics reg w
      match made.1 with
      | Outcome.panicked msg => (Outcome.panicked msg, made.2)
      | Outcome.returned m =>
        (Outcome.returned (Except.ok
          { authenticator := authenticator,
            legacyAuthenticator := legacy,
            fallbackEnabled := authCfg.LegacyFallback,
            metrics := m,
            tracer := tracer }), made.2)

/-! ## Concrete instances -/

/-- A tracer that tags the context with the span name. -/
def sampleTracer : Tracer (List String) :=
  { derive := fun ctx name => name :: ctx }

/-- An authenticator that rejects every call, consumes one unit of external
state and returns a context marked by the failed attempt. -/
def rejecting (tag : String) : Authenticator Nat (List String) String :=
  { Authenticate := fun ctx s => ((tag :: ctx, some (tag ++ ": unauthenticated")), s + 1) }

/-- An authenticator that accepts every call and attaches an identity. -/
def accepting (tag : String) : Authenticator Nat (List String) String :=
  { Authenticate := fun ctx s => ((tag :: ctx, none), s + 1) }

/-- The state of a process in which nothing of this package has run yet and
every registry is empty. -/
def startWorld : World Nat (List String) :=
  { ext := 0, once := false, nextCounter := 0, counters := fun _ _ => 0,
    registered := fun _ => [], mustRegisterCalls := [], spans := [], invocations := [] }

/-- An orchestrator over the sample authenticators. -/
def sampleGate (primary legacy : Authenticator Nat (List String) String) (fallback : Bool) :
    AuthenticatorWithFallback Nat (List String) String :=
  { authenticator := primary, legacyAuthenticator := legacy, fallbackEnabled := fallback,
    metrics := { fallbackCounter := 0 }, tracer := sampleTracer }

/-- Primary rejects, legacy accepts, fallback disabled. -/
def gateOff : AuthenticatorWithFallback Nat (List String) String :=
  sampleGate (rejecting "primary") (accepting "legacy") false

/-- Primary rejects, legacy accepts, fallback enabled. -/
def gateOn : AuthenticatorWithFallback Nat (List String) String :=
  sampleGate (rejecting "primary") (accepting "legacy") true

/-- Primary accepts, fallback enabled. -/
def gateOk : AuthenticatorWithFallback Nat (List String) String :=
  sampleGate (accepting "primary") (rejecting "legacy") true

/-- A process in which `once` has not fired and registry 7 already exports
a metric of another package. -/
def busyWorld : World Nat (List String) :=
  { startWorld with registered := fun r => if r = 7 then [{ id := 100, fqName := "go_goroutines" }] else [] }

/-- A process in which `once` has not fired and registry 7 already holds a
collector whose descriptor carries the name of the fallback counter. -/
def takenWorld : World Nat (List String) :=
  { startWorld with
    registered := fun r => if r = 7 then [{ id := 100, fqName := fallbackFQName }] else [] }

/-- Declarations for the samples: the configuration is read from `raw`. -/
def sampleDecls : Decls (Option GrpcServerConfig) String :=
  { Dev := "development",
    ModeOnPrem := "on-prem",
    ReadGrpcServerConfig := fun cfg =>
      match cfg.raw with
      | some c => Except.ok c
      | none => Except.error "grpc server config missing" }

/-- The server configuration of an on-prem deployment with fallback enabled. -/
def sampleAuthCfg : GrpcServerConfig :=
  { SigningKeysURL := "https://keys.example/jwks", AllowedAudiences := ["svcB"],
    Mode := "on-prem", LegacyFallback := true }

/-- A development configuration holding `sampleAuthCfg`. -/
def sampleCfg : Cfg (Option GrpcServerConfig) :=
  { Env := "development", raw := some sampleAuthCfg }

/-- A verification library whose authenticators reject every call. -/
def sampleLib : Authnlib (List String) String (Authenticator Nat (List String) String) :=
  { NewGrpcAuthenticator := fun _ _ => Except.ok (rejecting "primary"),
    NewUnsafeGrpcAuthenticator := fun _ _ => rejecting "inproc" }

/-- The orchestrator a construction call produced, if it produced one. -/
def built {ε α : Type} (o : Outcome (Except ε α)) : Option α :=
  match o with
  | Outcome.returned (Except.ok a) => some a
  | _ => none

/-- First construction of an orchestrator in a process, against registry 7. -/
def firstBuild : Outcome (Except String (AuthenticatorWithFallback Nat (List String) String))
    × World Nat (List String) :=
  NewGrpcAuthenticatorWithFallback sampleDecls sampleLib (accepting "legacy") sampleCfg (some 7)
    sampleTracer startWorld

/-- Second construction in the same process, against the same registry. -/
def secondBuild : Outcome (Except String (AuthenticatorWithFallback Nat (List String) String))
    × World Nat (List String) :=
  NewGrpcAuthenticatorWithFallback sampleDecls sampleLib (accepting "legacy") sampleCfg (some 7)
    sampleTracer firstBuild.2

/-! ## The fallback orchestrator: theorems -/

/-- Unfolding of `Authenticate` when the primary authenticator succeeds. -/
theorem Authenticate_eq_of_primary_ok {σ Ctx ε : Type}
    (f : AuthenticatorWithFallback σ Ctx ε) (ctx : Ctx) (w : World σ Ctx)
    (hok : (f.primaryResult ctx w).1.2 = none) :
    f.Authenticate ctx w =
      (((f.primaryResult ctx w).1.1, none),
        { w with
          ext := (f.primaryResult ctx w).2,
          invocations := w.invocations ++ [Invocation.primary (f.origCtx ctx)],
          spans := w.spans ++ [spanWithoutFallback] }) := by
  simp only [AuthenticatorWithFallback.primaryResult, AuthenticatorWithFallback.origCtx] at hok
  simp only [AuthenticatorWithFallback.Authenticate, hok]
  rfl

/-- Unfolding of `Authenticate` when the primary authenticator fails and
fallback is disabled. -/
theorem Authenticate_eq_of_fallback_off {σ Ctx ε : Type}
    (f : AuthenticatorWithFallback σ Ctx ε) (ctx : Ctx) (w : World σ Ctx) (e : ε)
    (hfail : (f.primaryResult ctx w).1.2 = some e) (hoff : f.fallbackEnabled = false) :
    f.Authenticate ctx w =
      (((f.primaryResult ctx w).1.1, some e),
        { w with
          ext := (f.primaryResult ctx w).2,
          invocations := w.invocations ++ [Invocation.primary (f.origCtx ctx)],
          spans := w.spans ++ [spanWithoutFallback] }) := by
  simp only [AuthenticatorWithFallback.primaryResult, AuthenticatorWithFallback.origCtx] at hfail
  simp only [AuthenticatorWithFallback.Authenticate, hfail, hoff]
  rfl

/-- Unfolding of `Authenticate` when the primary authenticator fails and
fallback is enabled. -/
theorem Authenticate_eq_of_fallback_on {σ Ctx ε : Type}
    (f : AuthenticatorWithFallback σ Ctx ε) (ctx : Ctx) (w : World σ Ctx) (e : ε)
    (hfail : (f.primaryResult ctx w).1.2 = some e) (hon : f.fallbackEnabled = true) :
    f.Authenticate ctx w =
      ((f.legacyResult ctx w).1,
        { w with
          ext := (f.legacyResult ctx w).2,
          invocations := w.invocations ++
            [Invocation.primary (f.origCtx ctx), Invocation.legacy (f.origCtx ctx)],
          counters := Function.update w.counters f.metrics.fallbackCounter
            (Function.update (w.counters f.metrics.fallbackCounter)
              (sprintfBool (f.legacyResult ctx w).1.2.isNone)
              (w.counters f.metrics.fallbackCounter
                (sprintfBool (f.legacyResult ctx w).1.2.isNone) + 1)),
          spans := w.spans ++ [spanWithFallback] }) := by
  simp only [AuthenticatorWithFallback.primaryResult, AuthenticatorWithFallback.origCtx] at hfail
  simp only [AuthenticatorWithFallback.Authenticate, hfail, hon]
  simp [AuthenticatorWithFallback.legacyResult, AuthenticatorWithFallback.primaryResult,
    AuthenticatorWithFallback.origCtx, World.Inc, World.finish, spanWithFallback,
    Span.SetAttributes, Span.End, Tracer.Start]

/-- The label written by `fmt.Sprintf("%t", b)` is "true" exactly for `true`. -/
theorem sprintfBool_eq_true (b : Bool) : sprintfBool b = "true" ↔ b = true := by
  cases b <;> simp [sprintfBool]

/-- The label written by `fmt.Sprintf("%t", b)` is "false" exactly for `false`. -/
theorem sprintfBool_eq_false (b : Bool) : sprintfBool b = "false" ↔ b = false := by
  cases b <;> simp [sprintfBool]

/-- C1: when the primary authenticator fails and fallback is disabled,
`Authenticate` returns exactly the primary error, invokes only the primary
authenticator (no legacy invocation is added), leaves every counter of every
label unchanged, and finishes one span whose only attribute write is
`fallback_used = false`. -/
theorem Authenticate_primary_error_fallback_disabled {σ Ctx ε : Type}
    (f : AuthenticatorWithFallback σ Ctx ε) (ctx : Ctx) (w : World σ Ctx) (e : ε)
    (hfail : (f.primaryResult ctx w).1.2 = some e)
    (hoff : f.fallbackEnabled = false) :
    (f.Authenticate ctx w).1.2 = some e
    ∧ (f.Authenticate ctx w).2.invocations
        = w.invocations ++ [Invocation.primary (f.origCtx ctx)]
    ∧ (∀ c, Invocation.legacy c ∈ (f.Authenticate ctx w).2.invocations →
        Invocation.legacy c ∈ w.invocations)
    ∧ (f.Authenticate ctx w).2.counters = w.counters
    ∧ (f.Authenticate ctx w).2.spans = w.spans ++ [spanWithoutFallback]
    ∧ ("fallback_used", true) ∉ spanWithoutFallback.sets
    ∧ spanWithoutFallback.attr "fallback_used" = some false := by
  rw [Authenticate_eq_of_fallback_off f ctx w e hfail hoff]
  refine ⟨rfl, rfl, ?_, rfl, rfl, ?_, rfl⟩
  · intro c hc
    simpa using hc
  · simp [spanWithoutFallback]

/-- Witness of C1: a rejecting primary authenticator, fallback disabled. -/
theorem Authenticate_primary_error_fallback_disabled_witness :
    (gateOff.primaryResult ["token"] startWorld).1.2 = some "primary: unauthenticated"
    ∧ gateOff.fallbackEnabled = false
    ∧ ((gateOff.Authenticate ["token"] startWorld).1.2 = some "primary: unauthenticated"
      ∧ (gateOff.Authenticate ["token"] startWorld).2.invocations
          = startWorld.invocations ++ [Invocation.primary (gateOff.origCtx ["token"])]
      ∧ (∀ c, Invocation.legacy c ∈ (gateOff.Authenticate ["token"] startWorld).2.invocations →
          Invocation.legacy c ∈ startWorld.invocations)
      ∧ (gateOff.Authenticate ["token"] startWorld).2.counters = startWorld.counters
      ∧ (gateOff.Authenticate ["token"] startWorld).2.spans
          = startWorld.spans ++ [spanWithoutFallback]
      ∧ ("fallback_used", true) ∉ spanWithoutFallback.sets
      ∧ spanWithoutFallback.attr "fallback_used" = some false) :=
  ⟨by decide, rfl,
    Authenticate_primary_error_fallback_disabled gateOff ["token"] startWorld
      "primary: unauthenticated" (by decide) rfl⟩

/-- C2: when the primary authenticator fails and fallback is enabled,
`Authenticate` adds exactly two invocations, the primary one and then one
legacy invocation, both with the context `origCtx` that the primary received;
the counter of the holder goes up by one under the label "true" when the
legacy error is nil and "false" otherwise, every other counter and label is
unchanged; and the finished span ends with `fallback_used = true`. -/
theorem Authenticate_primary_error_fallback_enabled {σ Ctx ε : Type}
    (f : AuthenticatorWithFallback σ Ctx ε) (ctx : Ctx) (w : World σ Ctx) (e : ε)
    (hfail : (f.primaryResult ctx w).1.2 = some e)
    (hon : f.fallbackEnabled = true) :
    (f.Authenticate ctx w).2.invocations
        = w.invocations ++ [Invocation.primary (f.origCtx ctx), Invocation.legacy (f.origCtx ctx)]
    ∧ f.primaryResult ctx w = f.authenticator.Authenticate (f.origCtx ctx) w.ext
    ∧ ((f.legacyResult ctx w).1.2 = none →
        (f.Authenticate ctx w).2.counters f.metrics.fallbackCounter "true"
            = w.counters f.metrics.fallbackCounter "true" + 1
        ∧ ∀ c l, (c ≠ f.metrics.fallbackCounter ∨ l ≠ "true") →
            (f.Authenticate ctx w).2.counters c l = w.counters c l)
    ∧ ((f.legacyResult ctx w).1.2 ≠ none →
        (f.Authenticate ctx w).2.counters f.metrics.fallbackCounter "false"
            = w.counters f.metrics.fallbackCounter "false" + 1
        ∧ ∀ c l, (c ≠ f.metrics.fallbackCounter ∨ l ≠ "false") →
            (f.Authenticate ctx w).2.counters c l = w.counters c l)
    ∧ (f.Authenticate ctx w).2.spans = w.spans ++ [spanWithFallback]
    ∧ spanWithFallback.attr "fallback_used" = some true := by
  rw [Authenticate_eq_of_fallback_on f ctx w e hfail hon]
  refine ⟨rfl, rfl, ?_, ?_, rfl, rfl⟩
  · intro hl
    have hlab : sprintfBool (f.legacyResult ctx w).1.2.isNone = "true" := by
      rw [hl]; rfl
    simp only [hlab]
    refine ⟨by simp, ?_⟩
    intro c l hcl
    by_cases hc : c = f.metrics.fallbackCounter
    · subst hc
      have hne : l ≠ "true" := by
        rcases hcl with h | h
        · exact absurd rfl h
        · exact h
      simp [Function.update_noteq hne]
    · simp [Function.update_noteq hc]
  · intro hl
    have hlab : sprintfBool (f.legacyResult ctx w).1.2.isNone = "false" := by
      cases hres : (f.legacyResult ctx w).1.2 with
      | none => exact absurd hres hl
      | some _ => rfl
    simp only [hlab]
    refine ⟨by simp, ?_⟩
    intro c l hcl
    by_cases hc : c = f.metrics.fallbackCounter
    · subst hc
      have hne : l ≠ "false" := by
        rcases hcl with h | h
        · exact absurd rfl h
        · exact h
      simp [Function.update_noteq hne]
    · simp [Function.update_noteq hc]

/-- Witness of C2: a rejecting primary and an accepting legacy authenticator,
fallback enabled. -/
theorem Authenticate_primary_error_fallback_enabled_witness :
    (gateOn.primaryResult ["token"] startWorld).1.2 = some "primary: unauthenticated"
    ∧ gateOn.fallbackEnabled = true
    ∧ ((gateOn.Authenticate ["token"] startWorld).2.invocations
          = startWorld.invocations ++
            [Invocation.primary (gateOn.origCtx ["token"]), Invocation.legacy (gateOn.origCtx ["token"])]
      ∧ gateOn.primaryResult ["token"] startWorld
          = gateOn.authenticator.Authenticate (gateOn.origCtx ["token"]) startWorld.ext
      ∧ ((gateOn.legacyResult ["token"] startWorld).1.2 = none →
          (gateOn.Authenticate ["token"] startWorld).2.counters gateOn.metrics.fallbackCounter "true"
              = startWorld.counters gateOn.metrics.fallbackCounter "true" + 1
          ∧ ∀ c l, (c ≠ gateOn.metrics.fallbackCounter ∨ l ≠ "true") →
              (gateOn.Authenticate ["token"] startWorld).2.counters c l = startWorld.counters c l)
      ∧ ((gateOn.legacyResult ["token"] startWorld).1.2 ≠ none →
          (gateOn.Authenticate ["token"] startWorld).2.counters gateOn.metrics.fallbackCounter "false"
              = startWorld.counters gateOn.metrics.fallbackCounter "false" + 1
          ∧ ∀ c l, (c ≠ gateOn.metrics.fallbackCounter ∨ l ≠ "false") →
              (gateOn.Authenticate ["token"] startWorld).2.counters c l = startWorld.counters c l)
      ∧ (gateOn.Authenticate ["token"] startWorld).2.spans = startWorld.spans ++ [spanWithFallback]
      ∧ spanWithFallback.attr "fallback_used" = some true) :=
  ⟨by decide, rfl,
    Authenticate_primary_error_fallback_enabled gateOn ["token"] startWorld
      "primary: unauthenticated" (by decide) rfl⟩

/-- C3: the error returned by `Authenticate` is nil exactly when the primary
authenticator succeeded, or fallback is enabled and the legacy authenticator
succeeded; when the primary failed and the legacy one, if attempted, failed
too, the error is not nil; and a nil error comes with the context of exactly
one authenticator: the primary one when it succeeded (the legacy one is then
not invoked), the legacy one otherwise. -/
theorem Authenticate_error_nil_iff {σ Ctx ε : Type}
    (f : AuthenticatorWithFallback σ Ctx ε) (ctx : Ctx) (w : World σ Ctx) :
    ((f.Authenticate ctx w).1.2 = none ↔
        ((f.primaryResult ctx w).1.2 = none
          ∨ (f.fallbackEnabled = true ∧ (f.legacyResult ctx w).1.2 = none)))
    ∧ (((f.primaryResult ctx w).1.2 ≠ none
          ∧ (f.fallbackEnabled = true → (f.legacyResult ctx w).1.2 ≠ none)) →
        (f.Authenticate ctx w).1.2 ≠ none)
    ∧ ((f.Authenticate ctx w).1.2 = none →
        ((f.primaryResult ctx w).1.2 = none
          ∧ (f.Authenticate ctx w).1.1 = (f.primaryResult ctx w).1.1
          ∧ (f.Authenticate ctx w).2.invocations
              = w.invocations ++ [Invocation.primary (f.origCtx ctx)])
        ∨ ((f.primaryResult ctx w).1.2 ≠ none
          ∧ f.fallbackEnabled = true
          ∧ (f.legacyResult ctx w).1.2 = none
          ∧ (f.Authenticate ctx w).1.1 = (f.legacyResult ctx w).1.1
          ∧ (f.Authenticate ctx w).2.invocations
              = w.invocations ++
                [Invocation.primary (f.origCtx ctx), Invocation.legacy (f.origCtx ctx)])) := by
  cases hp : (f.primaryResult ctx w).1.2 with
  | none =>
    rw [Authenticate_eq_of_primary_ok f ctx w hp]
    simp
  | some e =>
    cases hfb : f.fallbackEnabled with
    | false =>
      rw [Authenticate_eq_of_fallback_off f ctx w e hp hfb]
      simp
    | true =>
      rw [Authenticate_eq_of_fallback_on f ctx w e hp hfb]
      simp

/-- C4: when the primary authenticator fails and fallback is enabled, the
pair `Authenticate` returns is the pair the legacy authenticator returned, so
the primary error is dropped whatever the legacy outcome; and the result does
not depend on the context the failed primary attempt returned: any other
failing primary authenticator that leaves the collaborators in the same state
gives the same pair. -/
theorem Authenticate_result_is_legacy_result {σ Ctx ε : Type}
    (f : AuthenticatorWithFallback σ Ctx ε) (ctx : Ctx) (w : World σ Ctx) (e : ε)
    (hfail : (f.primaryResult ctx w).1.2 = some e)
    (hon : f.fallbackEnabled = true) :
    (f.Authenticate ctx w).1 = (f.legacyResult ctx w).1
    ∧ (f.legacyResult ctx w).1
        = (f.legacyAuthenticator.Authenticate (f.origCtx ctx) (f.primaryResult ctx w).2).1
    ∧ ∀ (other : Authenticator σ Ctx ε) (e₂ : ε),
        (other.Authenticate (f.origCtx ctx) w.ext).1.2 = some e₂ →
        (other.Authenticate (f.origCtx ctx) w.ext).2 = (f.primaryResult ctx w).2 →
        (AuthenticatorWithFallback.Authenticate { f with authenticator := other } ctx w).1
          = (f.Authenticate ctx w).1 := by
  refine ⟨?_, rfl, ?_⟩
  · rw [Authenticate_eq_of_fallback_on f ctx w e hfail hon]
  · intro other e₂ hother hstate
    rw [Authenticate_eq_of_fallback_on f ctx w e hfail hon,
      Authenticate_eq_of_fallback_on { f with authenticator := other } ctx w e₂ hother hon]
    simp only [AuthenticatorWithFallback.legacyResult, AuthenticatorWithFallback.primaryResult,
      AuthenticatorWithFallback.origCtx] at hstate ⊢
    rw [hstate]

/-- Witness of C4: a rejecting primary and an accepting legacy authenticator,
fallback enabled. -/
theorem Authenticate_result_is_legacy_result_witness :
    (gateOn.primaryResult ["token"] startWorld).1.2 = some "primary: unauthenticated"
    ∧ gateOn.fallbackEnabled = true
    ∧ ((gateOn.Authenticate ["token"] startWorld).1 = (gateOn.legacyResult ["token"] startWorld).1
      ∧ (gateOn.legacyResult ["token"] startWorld).1
          = (gateOn.legacyAuthenticator.Authenticate (gateOn.origCtx ["token"])
              (gateOn.primaryResult ["token"] startWorld).2).1
      ∧ ∀ (other : Authenticator Nat (List String) String) (e₂ : String),
          (other.Authenticate (gateOn.origCtx ["token"]) startWorld.ext).1.2 = some e₂ →
          (other.Authenticate (gateOn.origCtx ["token"]) startWorld.ext).2
            = (gateOn.primaryResult ["token"] startWorld).2 →
          (AuthenticatorWithFallback.Authenticate { gateOn with authenticator := other }
              ["token"] startWorld).1
            = (gateOn.Authenticate ["token"] startWorld).1) :=
  ⟨by decide, rfl,
    Authenticate_result_is_legacy_result gateOn ["token"] startWorld
      "primary: unauthenticated" (by decide) rfl⟩

/-- C5: when the primary authenticator succeeds, whatever the value of
`fallbackEnabled`, `Authenticate` returns the context of the primary
authenticator with a nil error, adds only the primary invocation (no legacy
invocation), leaves every counter of every label unchanged, and finishes one
span whose only attribute write is `fallback_used = false`. -/
theorem Authenticate_primary_success {σ Ctx ε : Type}
    (f : AuthenticatorWithFallback σ Ctx ε) (ctx : Ctx) (w : World σ Ctx)
    (hok : (f.primaryResult ctx w).1.2 = none) :
    (f.Authenticate ctx w).1 = ((f.primaryResult ctx w).1.1, none)
    ∧ (f.Authenticate ctx w).2.invocations
        = w.invocations ++ [Invocation.primary (f.origCtx ctx)]
    ∧ (∀ c, Invocation.legacy c ∈ (f.Authenticate ctx w).2.invocations →
        Invocation.legacy c ∈ w.invocations)
    ∧ (f.Authenticate ctx w).2.counters = w.counters
    ∧ (f.Authenticate ctx w).2.spans = w.spans ++ [spanWithoutFallback]
    ∧ ("fallback_used", true) ∉ spanWithoutFallback.sets
    ∧ spanWithoutFallback.attr "fallback_used" = some false
    ∧ ∀ b : Bool,
        AuthenticatorWithFallback.Authenticate { f with fallbackEnabled := b } ctx w
          = f.Authenticate ctx w := by
  rw [Authenticate_eq_of_primary_ok f ctx w hok]
  refine ⟨rfl, rfl, ?_, rfl, rfl, ?_, rfl, ?_⟩
  · intro c hc
    simpa using hc
  · simp [spanWithoutFallback]
  · intro b
    rw [Authenticate_eq_of_primary_ok { f with fallbackEnabled := b } ctx w hok]
    rfl

/-- Witness of C5: an accepting primary authenticator, fallback enabled. -/
theorem Authenticate_primary_success_witness :
    (gateOk.primaryResult ["token"] startWorld).1.2 = none
    ∧ ((gateOk.Authenticate ["token"] startWorld).1
          = ((gateOk.primaryResult ["token"] startWorld).1.1, none)
      ∧ (gateOk.Authenticate ["token"] startWorld).2.invocations
          = startWorld.invocations ++ [Invocation.primary (gateOk.origCtx ["token"])]
      ∧ (∀ c, Invocation.legacy c ∈ (gateOk.Authenticate ["token"] startWorld).2.invocations →
          Invocation.legacy c ∈ startWorld.invocations)
      ∧ (gateOk.Authenticate ["token"] startWorld).2.counters = startWorld.counters
      ∧ (gateOk.Authenticate ["token"] startWorld).2.spans
          = startWorld.spans ++ [spanWithoutFallback]
      ∧ ("fallback_used", true) ∉ spanWithoutFallback.sets
      ∧ spanWithoutFallback.attr "fallback_used" = some false
      ∧ ∀ b : Bool,
          AuthenticatorWithFallback.Authenticate { gateOk with fallbackEnabled := b }
              ["token"] startWorld
            = gateOk.Authenticate ["token"] startWorld) :=
  ⟨rfl, Authenticate_primary_success gateOk ["token"] startWorld rfl⟩

/-! ## Metrics: theorems -/

/-- Once the package-level `once` has fired, `newMetrics` only allocates a
counter vector: it returns, and registers nothing. -/
theorem newMetrics_of_once_fired {σ Ctx : Type} (reg : RegId) (w : World σ Ctx)
    (h : w.once = true) :
    newMetrics (some reg) w =
      (Outcome.returned { fallbackCounter := w.nextCounter },
        { w with nextCounter := w.nextCounter + 1,
                 counters := Function.update w.counters w.nextCounter (fun _ => 0) }) := by
  simp [newMetrics, h]

/-- After `once` has fired, any number of further calls returns without
touching the registry. -/
theorem newMetricsTimes_of_once_fired {σ Ctx : Type} (reg : RegId) (n : Nat) :
    ∀ w : World σ Ctx, w.once = true →
      (newMetricsTimes (some reg) n w).2.once = true
      ∧ (newMetricsTimes (some reg) n w).2.mustRegisterCalls = w.mustRegisterCalls
      ∧ (newMetricsTimes (some reg) n w).2.registered = w.registered
      ∧ (newMetricsTimes (some reg) n w).1.length = n
      ∧ ∀ o ∈ (newMetricsTimes (some reg) n w).1, ∃ m, o = Outcome.returned m := by
  induction n with
  | zero =>
    intro w h
    simp [newMetricsTimes, h]
  | succ k ih =>
    intro w h
    have hstep := newMetrics_of_once_fired reg w h
    obtain ⟨h1, h2, h3, h4, h5⟩ := ih (newMetrics (some reg) w).2 (by rw [hstep]; exact h)
    simp only [newMetricsTimes]
    refine ⟨h1, ?_, ?_, ?_, ?_⟩
    · rw [h2, hstep]
    · rw [h3, hstep]
    · simp [h4]
    · intro o ho
      rcases List.mem_cons.mp ho with hhead | htail
      · exact ⟨{ fallbackCounter := w.nextCounter }, by rw [hhead, hstep]⟩
      · exact h5 o htail

/-- The first call with a registry while `once` has not fired: it makes one
`MustRegister` call, for the counter it has just allocated, and fires `once`. -/
theorem newMetrics_first_call {σ Ctx : Type} (reg : RegId) (w : World σ Ctx)
    (h : w.once = false) :
    (newMetrics (some reg) w).2.once = true
    ∧ (newMetrics (some reg) w).2.mustRegisterCalls
        = w.mustRegisterCalls ++ [(reg, w.nextCounter)] := by
  cases hany : (w.registered reg).any (fun d => d.fqName == fallbackFQName) with
  | true =>
    unfold newMetrics MustRegister
    simp [h, hany]
  | false =>
    unfold newMetrics MustRegister
    simp [h, hany]

/-- The first call returns when the registry holds no descriptor of the name
of the fallback counter, and the registry then holds the new counter. -/
theorem newMetrics_first_call_returns {σ Ctx : Type} (reg : RegId) (w : World σ Ctx)
    (h : w.once = false) (hfree : ∀ d ∈ w.registered reg, d.fqName ≠ fallbackFQName) :
    (newMetrics (some reg) w).1 = Outcome.returned { fallbackCounter := w.nextCounter }
    ∧ (newMetrics (some reg) w).2.registered reg
        = w.registered reg ++ [{ id := w.nextCounter, fqName := fallbackFQName }] := by
  have hany : (w.registered reg).any (fun d => d.fqName == fallbackFQName) = false := by
    rw [List.any_eq_false]
    intro d hd
    simpa using hfree d hd
  unfold newMetrics MustRegister
  simp [h, hany]

/-- C6, as amended: in a process where `once` has not fired yet, `n ≥ 1`
calls of `newMetrics` against one non-nil registry make exactly one
`MustRegister` call on it, made by the first call for the counter that call
allocated, and no call after the first can panic; when moreover the registry
held no descriptor of the fallback counter's name before the first call, all
`n` calls return (none panics) and the registry holds that one counter in
addition. -/
theorem newMetrics_registers_exactly_once {σ Ctx : Type} (n : Nat) (hn : 1 ≤ n)
    (reg : RegId) (w : World σ Ctx) (honce : w.once = false) :
    (newMetricsTimes (some reg) n w).2.mustRegisterCalls
        = w.mustRegisterCalls ++ [(reg, w.nextCounter)]
    ∧ (newMetrics (some reg) w).2.mustRegisterCalls
        = w.mustRegisterCalls ++ [(reg, w.nextCounter)]
    ∧ (newMetricsTimes (some reg) n w).1.length = n
    ∧ (∀ o ∈ (newMetricsTimes (some reg) n w).1.tail, ∃ m, o = Outcome.returned m)
    ∧ ((∀ d ∈ w.registered reg, d.fqName ≠ fallbackFQName) →
        (∀ o ∈ (newMetricsTimes (some reg) n w).1, ∃ m, o = Outcome.returned m)
        ∧ (newMetricsTimes (some reg) n w).2.registered reg
            = w.registered reg ++ [{ id := w.nextCounter, fqName := fallbackFQName }]) := by
  obtain ⟨k, rfl⟩ : ∃ k, n = k + 1 := ⟨n - 1, by omega⟩
  obtain ⟨hfired, hcalls⟩ := newMetrics_first_call reg w honce
  obtain ⟨_, h2, h3, h4, h5⟩ := newMetricsTimes_of_once_fired reg k (newMetrics (some reg) w).2 hfired
  simp only [newMetricsTimes]
  refine ⟨?_, hcalls, ?_, ?_, ?_⟩
  · rw [h2, hcalls]
  · simp [h4]
  · intro o ho
    exact h5 o (by simpa using ho)
  · intro hfree
    obtain ⟨hret, hreg⟩ := newMetrics_first_call_returns reg w honce hfree
    refine ⟨?_, ?_⟩
    · intro o ho
      rcases List.mem_cons.mp ho with hhead | htail
      · exact ⟨{ fallbackCounter := w.nextCounter }, by rw [hhead, hret]⟩
      · exact h5 o htail
    · rw [h3, hreg]

/-- Witness of C6: three calls against registry 7, which already exports
another metric; all three return. -/
theorem newMetrics_registers_exactly_once_witness :
    1 ≤ 3
    ∧ busyWorld.once = false
    ∧ (∀ d ∈ busyWorld.registered 7, d.fqName ≠ fallbackFQName)
    ∧ (newMetricsTimes (some 7) 3 busyWorld).2.mustRegisterCalls
        = busyWorld.mustRegisterCalls ++ [(7, busyWorld.nextCounter)]
    ∧ (newMetrics (some 7) busyWorld).2.mustRegisterCalls
        = busyWorld.mustRegisterCalls ++ [(7, busyWorld.nextCounter)]
    ∧ (newMetricsTimes (some 7) 3 busyWorld).1.length = 3
    ∧ (∀ o ∈ (newMetricsTimes (some 7) 3 busyWorld).1, ∃ m, o = Outcome.returned m)
    ∧ (newMetricsTimes (some 7) 3 busyWorld).2.registered 7
        = busyWorld.registered 7 ++ [{ id := busyWorld.nextCounter, fqName := fallbackFQName }] :=
  ⟨by decide, rfl, by decide,
    (newMetrics_registers_exactly_once 3 (by decide) 7 busyWorld rfl).1,
    (newMetrics_registers_exactly_once 3 (by decide) 7 busyWorld rfl).2.1,
    (newMetrics_registers_exactly_once 3 (by decide) 7 busyWorld rfl).2.2.1,
    ((newMetrics_registers_exactly_once 3 (by decide) 7 busyWorld rfl).2.2.2.2 (by decide)).1,
    ((newMetrics_registers_exactly_once 3 (by decide) 7 busyWorld rfl).2.2.2.2 (by decide)).2⟩

/-- C6 as stated fails: registry 7 is non-nil and already holds a descriptor
of the fallback counter's name; of three `newMetrics` calls against it the
first panics with the duplicate-registration error, so it is not the case
that none of the calls panics. -/
theorem newMetrics_first_call_panics_on_taken_name :
    1 ≤ 3
    ∧ takenWorld.once = false
    ∧ (newMetricsTimes (some 7) 3 takenWorld).1
        = [ Outcome.panicked "duplicate metrics collector registration attempted",
            Outcome.returned { fallbackCounter := 1 },
            Outcome.returned { fallbackCounter := 2 } ]
    ∧ (newMetricsTimes (some 7) 3 takenWorld).2.mustRegisterCalls = [(7, 0)]
    ∧ ¬ (∀ o ∈ (newMetricsTimes (some 7) 3 takenWorld).1, ∃ m, o = Outcome.returned m) := by
  refine ⟨by decide, rfl, by decide, by decide, ?_⟩
  intro hall
  obtain ⟨m, hm⟩ := hall (Outcome.panicked "duplicate metrics collector registration attempted")
    (by decide)
  cases hm

/-- C7, the code at two constructions against one registry: the first
orchestrator holds counter 0 and the second counter 1; only one `MustRegister`
call is made and the registry holds counter 0 alone; a fallback through the
second orchestrator raises its own counter to 1 while the series exported by
the registry stays at 0. -/
theorem second_holder_counter_is_not_registered :
    (built firstBuild.1).map (fun g => g.metrics) = some { fallbackCounter := 0 }
    ∧ (built secondBuild.1).map (fun g => g.metrics) = some { fallbackCounter := 1 }
    ∧ secondBuild.2.mustRegisterCalls = [(7, 0)]
    ∧ secondBuild.2.registered 7 = [{ id := 0, fqName := fallbackFQName }]
    ∧ (built secondBuild.1).map (fun g =>
          ((g.Authenticate ["token"] secondBuild.2).1.2,
           (g.Authenticate ["token"] secondBuild.2).2.counters g.metrics.fallbackCounter "true",
           (g.Authenticate ["token"] secondBuild.2).2.exported 7 fallbackFQName "true"))
        = some (none, 1, 0) := by
  decide

/-! ## Construction: theorems -/

/-- Unfolding of `NewGrpcAuthenticator` when `ReadGrpcServerConfig` succeeds:
the one call into the verification library and its arguments. -/
theorem NewGrpcAuthenticator_eq {κ Ctx ε A : Type} (d : Decls κ ε) (lib : Authnlib Ctx ε A)
    (cfg : Cfg κ) (tracer : Tracer Ctx) (authCfg : GrpcServerConfig)
    (hread : d.ReadGrpcServerConfig cfg = Except.ok authCfg) :
    NewGrpcAuthenticator d lib cfg tracer =
      lib.NewGrpcAuthenticator
        { KeyRetrieverConfig := { SigningKeysURL := authCfg.SigningKeysURL },
          VerifierConfig := { AllowedAudiences := authCfg.AllowedAudiences } }
        ([ GrpcAuthenticatorOption.WithIDTokenAuthOption true,
           GrpcAuthenticatorOption.WithKeyRetrieverOption
             (NewKeyRetriever { SigningKeysURL := authCfg.SigningKeysURL }
               [KeyRetrieverOpt.WithHTTPClientKeyRetrieverOpt
                 (if cfg.Env = d.Dev then
                    { Transport := some { TLSClientConfig := some { InsecureSkipVerify := true } } }
                  else DefaultClient)]),
           GrpcAuthenticatorOption.WithTracerAuthOption tracer ]
          ++ (if authCfg.Mode = d.ModeOnPrem then
                [GrpcAuthenticatorOption.WithDisableAccessTokenAuthOption]
              else [])) := by
  unfold NewGrpcAuthenticator
  simp only [hread]
  by_cases hmode : authCfg.Mode = d.ModeOnPrem
  · simp [hmode]
  · simp [hmode]

/-- C8: when `ReadGrpcServerConfig` succeeds, `NewGrpcAuthenticator` makes one
call to the library constructor, with a configuration whose allowed audiences
and signing-keys URL are the configured ones and an option list that contains
the disable-access-token option exactly when the mode is `ModeOnPrem`, and in
every mode the identity-token option set to true (never false), the key
retriever built from the configured `SigningKeysURL`, and the tracer. -/
theorem NewGrpcAuthenticator_options {κ Ctx ε : Type} (d : Decls κ ε)
    (cfg : Cfg κ) (tracer : Tracer Ctx) (authCfg : GrpcServerConfig)
    (hread : d.ReadGrpcServerConfig cfg = Except.ok authCfg) :
    ∃ (grpcAuthCfg : GrpcAuthenticatorConfig) (grpcOpts : List (GrpcAuthenticatorOption Ctx))
      (keyRetriever : KeyRetriever),
      (∀ (A : Type) (lib : Authnlib Ctx ε A),
          NewGrpcAuthenticator d lib cfg tracer = lib.NewGrpcAuthenticator grpcAuthCfg grpcOpts)
      ∧ (GrpcAuthenticatorOption.WithDisableAccessTokenAuthOption ∈ grpcOpts
          ↔ authCfg.Mode = d.ModeOnPrem)
      ∧ GrpcAuthenticatorOption.WithIDTokenAuthOption true ∈ grpcOpts
      ∧ GrpcAuthenticatorOption.WithIDTokenAuthOption false ∉ grpcOpts
      ∧ (∀ k, GrpcAuthenticatorOption.WithKeyRetrieverOption k ∈ grpcOpts ↔ k = keyRetriever)
      ∧ keyRetriever.config = { SigningKeysURL := authCfg.SigningKeysURL }
      ∧ (∀ t, GrpcAuthenticatorOption.WithTracerAuthOption t ∈ grpcOpts ↔ t = tracer)
      ∧ grpcAuthCfg.VerifierConfig.AllowedAudiences = authCfg.AllowedAudiences
      ∧ grpcAuthCfg.KeyRetrieverConfig.SigningKeysURL = authCfg.SigningKeysURL := by
  refine ⟨_, _,
    NewKeyRetriever { SigningKeysURL := authCfg.SigningKeysURL }
      [KeyRetrieverOpt.WithHTTPClientKeyRetrieverOpt
        (if cfg.Env = d.Dev then
           { Transport := some { TLSClientConfig := some { InsecureSkipVerify := true } } }
         else DefaultClient)],
    fun A lib => NewGrpcAuthenticator_eq d lib cfg tracer authCfg hread,
    ?_, ?_, ?_, ?_, ?_, ?_, ?_, ?_⟩
  · by_cases hmode : authCfg.Mode = d.ModeOnPrem
    · simp [hmode]
    · simp [hmode]
  · simp
  · by_cases hmode : authCfg.Mode = d.ModeOnPrem
    · simp [hmode]
    · simp [hmode]
  · intro k
    by_cases hmode : authCfg.Mode = d.ModeOnPrem
    · simp [hmode]
    · simp [hmode]
  · rfl
  · intro t
    by_cases hmode : authCfg.Mode = d.ModeOnPrem
    · simp [hmode]
    · simp [hmode]
  · rfl
  · rfl

/-- Witness of C8: the sample on-prem configuration. -/
theorem NewGrpcAuthenticator_options_witness :
    sampleDecls.ReadGrpcServerConfig sampleCfg = Except.ok sampleAuthCfg
    ∧ ∃ (grpcAuthCfg : GrpcAuthenticatorConfig)
        (grpcOpts : List (GrpcAuthenticatorOption (List String))) (keyRetriever : KeyRetriever),
      (∀ (A : Type) (lib : Authnlib (List String) String A),
          NewGrpcAuthenticator sampleDecls lib sampleCfg sampleTracer
            = lib.NewGrpcAuthenticator grpcAuthCfg grpcOpts)
      ∧ (GrpcAuthenticatorOption.WithDisableAccessTokenAuthOption ∈ grpcOpts
          ↔ sampleAuthCfg.Mode = sampleDecls.ModeOnPrem)
      ∧ GrpcAuthenticatorOption.WithIDTokenAuthOption true ∈ grpcOpts
      ∧ GrpcAuthenticatorOption.WithIDTokenAuthOption false ∉ grpcOpts
      ∧ (∀ k, GrpcAuthenticatorOption.WithKeyRetrieverOption k ∈ grpcOpts ↔ k = keyRetriever)
      ∧ keyRetriever.config = { SigningKeysURL := sampleAuthCfg.SigningKeysURL }
      ∧ (∀ t, GrpcAuthenticatorOption.WithTracerAuthOption t ∈ grpcOpts ↔ t = sampleTracer)
      ∧ grpcAuthCfg.VerifierConfig.AllowedAudiences = sampleAuthCfg.AllowedAudiences
      ∧ grpcAuthCfg.KeyRetrieverConfig.SigningKeysURL = sampleAuthCfg.SigningKeysURL :=
  ⟨rfl, NewGrpcAuthenticator_options sampleDecls sampleCfg sampleTracer sampleAuthCfg rfl⟩

/-- C9: for every configuration, either `ReadGrpcServerConfig` fails, and then
`NewGrpcAuthenticator` returns that error without building a key retriever,
or the single key retriever it passes on was given exactly one HTTP client,
and that client skips TLS certificate verification if and only if `cfg.Env`
is `setting.Dev`; for every other environment the client is
`http.DefaultClient`, which verifies certificates. -/
theorem NewGrpcAuthenticator_http_client {κ Ctx ε : Type} (d : Decls κ ε)
    (cfg : Cfg κ) (tracer : Tracer Ctx) :
    (∃ err, d.ReadGrpcServerConfig cfg = Except.error err
        ∧ ∀ (A : Type) (lib : Authnlib Ctx ε A),
            NewGrpcAuthenticator d lib cfg tracer = Except.error err)
    ∨ (∃ (authCfg : GrpcServerConfig) (grpcAuthCfg : GrpcAuthenticatorConfig)
        (grpcOpts : List (GrpcAuthenticatorOption Ctx)) (keyRetriever : KeyRetriever)
        (client : HTTPClient),
        d.ReadGrpcServerConfig cfg = Except.ok authCfg
        ∧ (∀ (A : Type) (lib : Authnlib Ctx ε A),
            NewGrpcAuthenticator d lib cfg tracer = lib.NewGrpcAuthenticator grpcAuthCfg grpcOpts)
        ∧ (∀ k, GrpcAuthenticatorOption.WithKeyRetrieverOption k ∈ grpcOpts ↔ k = keyRetriever)
        ∧ keyRetriever.clients = [client]
        ∧ (client.InsecureSkipVerify = true ↔ cfg.Env = d.Dev)
        ∧ (cfg.Env ≠ d.Dev → client = DefaultClient)
        ∧ DefaultClient.InsecureSkipVerify = false) := by
  cases hread : d.ReadGrpcServerConfig cfg with
  | error err =>
    refine Or.inl ⟨err, rfl, fun A lib => ?_⟩
    unfold NewGrpcAuthenticator
    simp only [hread]
  | ok authCfg =>
    refine Or.inr ⟨authCfg, _, _,
      NewKeyRetriever { SigningKeysURL := authCfg.SigningKeysURL }
        [KeyRetrieverOpt.WithHTTPClientKeyRetrieverOpt
          (if cfg.Env = d.Dev then
             { Transport := some { TLSClientConfig := some { InsecureSkipVerify := true } } }
           else DefaultClient)],
      (if cfg.Env = d.Dev then
         { Transport := some { TLSClientConfig := some { InsecureSkipVerify := true } } }
       else DefaultClient),
      rfl, fun A lib => NewGrpcAuthenticator_eq d lib cfg tracer authCfg hread, ?_, rfl, ?_, ?_, rfl⟩
    · intro k
      by_cases hmode : authCfg.Mode = d.ModeOnPrem
      · simp [hmode]
      · simp [hmode]
    · by_cases henv : cfg.Env = d.Dev
      · simp [henv, HTTPClient.InsecureSkipVerify]
      · simp [henv, HTTPClient.InsecureSkipVerify, DefaultClient]
    · intro henv
      simp [henv]

/-- C10: `NewInProcGrpcAuthenticator` takes no configuration; whatever the
library, its result is the one the unsafe constructor builds from the empty
configuration and exactly the two options disable-access-token and
identity-token = true, in this order, and it does not depend on the
signature-verifying constructor. -/
theorem NewInProcGrpcAuthenticator_call {Ctx ε A : Type} (lib : Authnlib Ctx ε A) :
    NewInProcGrpcAuthenticator lib
        = lib.NewUnsafeGrpcAuthenticator
            { KeyRetrieverConfig := { SigningKeysURL := "" },
              VerifierConfig := { AllowedAudiences := [] } }
            [ GrpcAuthenticatorOption.WithDisableAccessTokenAuthOption,
              GrpcAuthenticatorOption.WithIDTokenAuthOption true ]
    ∧ (∀ safe : GrpcAuthenticatorConfig → List (GrpcAuthenticatorOption Ctx) → Except ε A,
        NewInProcGrpcAuthenticator { lib with NewGrpcAuthenticator := safe }
          = NewInProcGrpcAuthenticator lib)
    ∧ (∀ o : GrpcAuthenticatorOption Ctx,
        o ∈ [ GrpcAuthenticatorOption.WithDisableAccessTokenAuthOption,
              GrpcAuthenticatorOption.WithIDTokenAuthOption true ] ↔
          (o = GrpcAuthenticatorOption.WithDisableAccessTokenAuthOption
            ∨ o = GrpcAuthenticatorOption.WithIDTokenAuthOption true)) := by
  refine ⟨rfl, fun _ => rfl, ?_⟩
  intro o
  simp

end Grpcutils
